import Mathlib

/-!
Verification of the quiz-state logic of `app.py`, a Streamlit multiple-choice
quiz viewer.  Python dicts are embedded as association lists with in-place
value replacement (`dictInsert`), session state as an explicit `Session`
structure, and the Streamlit button handlers as pure state transitions.
A raised-and-uncaught Python exception is embedded as `Except.error`.
-/

/-- A stored answer: `{"choice": choice_idx, "is_correct": is_correct}`
as written by `record_response` in `app.py`. -/
structure ResponseEntry where
  choice : Nat
  is_correct : Bool
deriving DecidableEq, Repr

/-- Python dict assignment `m[k] = v`: replace the value at `k` in place
if `k` is present, otherwise append the new pair at the end
(insertion-ordered dict semantics). -/
def dictInsert {K V : Type} [DecidableEq K] : List (K × V) → K → V → List (K × V)
  | [], k, v => [(k, v)]
  | (k', v') :: rest, k, v =>
      if k' = k then (k, v) :: rest else (k', v') :: dictInsert rest k v

/-- Python dict lookup `m.get(k)` returning `None` when absent. -/
def dictLookup {K V : Type} [DecidableEq K] : List (K × V) → K → Option V
  | [], _ => none
  | (k', v') :: rest, k => if k' = k then some v' else dictLookup rest k

/-- `responses`: dict mapping subject → (dict mapping question index →
response entry), as in `st.session_state.responses`. -/
abbrev Responses : Type := List (String × List (Nat × ResponseEntry))

/-- One question record of `questions.json`: each field is read with
`question.get(...)` in `app.py`, so every field is optional. -/
structure Question where
  question : Option String := none
  image : Option String := none
  choices : Option (List String) := none
  answer : Option Int := none
deriving DecidableEq, Repr

/-- The question bank: dict mapping subject name → list of questions
(after `load_questions` has normalized `None` values to `[]`, every
value is a list, so the `isinstance(v, list)` checks of `app.py` hold). -/
abbrev Bank : Type := List (String × List Question)

/-- The session state fields of `app.py` that the quiz logic touches
(`st.session_state.qbank / subject / qidx / responses / started`).
`qidx` is a `Nat`: every write in `app.py` is `≥ 0`
(`0`, `max(0, qidx-1)`, `min(total_q-1, qidx+1)` with `total_q ≥ 1`,
and `new_idx - 1` with `new_idx ≥ 1`). -/
structure Session where
  qbank : Bank
  subject : Option String
  qidx : Nat
  responses : Responses
  started : Bool
deriving DecidableEq

/-- `st.session_state.qbank.get(subject, [])`: the active subject's
question list, empty when no subject is selected or the subject is
not in the bank. -/
def subjectQuestions (s : Session) : List Question :=
  match s.subject with
  | none => []
  | some subj => (dictLookup s.qbank subj).getD []

/-- `record_response(subject, qidx, choice_idx, is_correct)` from `app.py`
(lines 65–71): creates the inner dict for `subject` if absent, then stores
`{"choice": choice_idx, "is_correct": is_correct}` at
`responses[subject][qidx]`. -/
def record_response (responses : Responses) (subject : String) (qidx : Nat)
    (choice_idx : Nat) (is_correct : Bool) : Responses :=
  let inner := (dictLookup responses subject).getD []
  dictInsert responses subject
    (dictInsert inner qidx ⟨choice_idx, is_correct⟩)

/-- `get_saved_choice(subject, qidx)` from `app.py`: the previously
recorded choice, or `None` when any lookup step fails. -/
def get_saved_choice (responses : Responses) (subject : String) (qidx : Nat) :
    Option Nat :=
  match dictLookup responses subject with
  | none => none
  | some inner =>
      match dictLookup inner qidx with
      | none => none
      | some entry => some entry.choice

/-- Outcome of the `정답 확인` (check-answer) button handler: either the
malformed-question error message (`answer` missing in the JSON record)
or an evaluated answer. -/
inductive CheckResult where
  | malformed
  | answered (is_correct : Bool)
deriving DecidableEq, Repr

/-- The `정답 확인` handler of `app.py` (lines 207–213): when
`correct_index is None` it only shows an error and records nothing;
otherwise it computes `is_correct = (selected == int(correct_index))`
and calls `record_response`. -/
def check_handler (responses : Responses) (subject : String) (qidx : Nat)
    (selected : Nat) (correct_index : Option Int) : CheckResult × Responses :=
  match correct_index with
  | none => (.malformed, responses)
  | some c =>
      let is_correct := decide ((selected : Int) = c)
      (.answered is_correct,
       record_response responses subject qidx selected is_correct)

/-- Helper: the full response entry stored at `(subject, qidx)`. -/
def storedEntry (responses : Responses) (subject : String) (qidx : Nat) :
    Option ResponseEntry :=
  match dictLookup responses subject with
  | none => none
  | some inner => dictLookup inner qidx

/-- The `처음 화면으로` (return-to-landing) button handler of `app.py`
(line 113): `st.session_state.update({"started": False})`. -/
def to_landing (s : Session) : Session :=
  { s with started := false }

/-- `get_current_question()` from `app.py` (lines 55–63): with an empty
question list it returns `(None, 0)` and leaves `qidx` untouched;
otherwise it clamps `qidx` by `max(0, min(qidx, len(qlist)-1))` (the
`max(0, ·)` is vacuous for a `Nat`), writes the clamped value back to the
session, and returns the question at the clamped index with the length. -/
def get_current_question (s : Session) : (Option Question × Nat) × Session :=
  let qlist := subjectQuestions s
  if qlist.isEmpty then ((none, 0), s)
  else
    let qidx := min s.qidx (qlist.length - 1)
    ((qlist.get? qidx, qlist.length), { s with qidx := qidx })

/-- The `이전 문제` (prev) button handler of `app.py` (lines 222–224):
`qidx = max(0, qidx - 1)`, which is `Nat` truncated subtraction. -/
def prev_handler (s : Session) : Session :=
  { s with qidx := s.qidx - 1 }

/-- The `다음 문제` (next) button handler of `app.py` (lines 226–228):
`qidx = min(total_q - 1, qidx + 1)` where `total_q` is the length of the
active subject's question list. -/
def next_handler (s : Session) : Session :=
  { s with qidx := min ((subjectQuestions s).length - 1) (s.qidx + 1) }

/-- The `문항 번호` number-input handler of `app.py` (lines 141–144): only
active when the subject's list is non-empty; the widget itself constrains
`new_idx` to `[1, total_q]` (a precondition in the theorems below); sets
`qidx = new_idx - 1` when that differs from the current value. -/
def set_index_input (s : Session) (new_idx : Nat) : Session :=
  if (subjectQuestions s).length > 0 then
    if new_idx - 1 ≠ s.qidx then { s with qidx := new_idx - 1 } else s
  else s

/-- State of the `data/questions.json` file as seen by `load_questions`:
absent, or present with either JSON-parseable content (the parsed
mapping, values `none` for JSON `null`) or malformed content. -/
inductive FileState where
  | absent
  | withContent (parsed : Option (List (String × Option (List Question))))

/-- A raised Python exception value. -/
inductive PyError where
  | jsonDecodeError
deriving DecidableEq, Repr

/-- `load_questions` from `app.py` (lines 24–34): returns `{}` when the
file does not exist; otherwise calls `json.load`, which raises
`json.JSONDecodeError` on malformed content — there is no `try/except`
around it, so the raise (embedded as `Except.error`) escapes
`load_questions`; on success, `None` subject values are normalized to
`[]`. -/
def load_questions (file : FileState) : Except PyError Bank :=
  match file with
  | .absent => .ok []
  | .withContent none => .error .jsonDecodeError
  | .withContent (some data) => .ok (data.map fun kv => (kv.1, kv.2.getD []))

/-- The per-run bank reload of `app.py` (line 85):
`st.session_state.qbank = load_questions(_json_mtime_ns())`, with no
exception handler anywhere around it — an exception raised inside
`load_questions` aborts the whole script run. -/
def app_reload_bank (s : Session) (file : FileState) : Except PyError Session :=
  match load_questions file with
  | .error e => .error e
  | .ok b => .ok { s with qbank := b }

/-- `get_subject_list(qbank)` from `app.py` (lines 36–40): the keys whose
value is a non-empty list; when that is empty, all keys. -/
def get_subject_list (qbank : Bank) : List String :=
  let subjects := (qbank.filter fun kv => kv.2.length > 0).map Prod.fst
  if subjects.isEmpty then qbank.map Prod.fst else subjects

/-- The progress summary of `app.py` (lines 231–235):
`(solved, total, correct_count)` where `resp = responses.get(subject, {})`,
`solved = len(resp)`,
`correct_count = sum(1 for v in resp.values() if v.get("is_correct"))`,
and `total` is the length of the subject's question list. -/
def progress_summary (responses : Responses) (qbank : Bank)
    (subject : String) : Nat × Nat × Nat :=
  let resp := (dictLookup responses subject).getD []
  (resp.length,
   ((dictLookup qbank subject).getD []).length,
   (resp.map Prod.snd).countP (fun e => e.is_correct))

/-- The `교과 선택` subject-selectbox handler of `app.py` (lines 131–135):
when the chosen subject differs from the current one, it sets the subject,
resets `qidx` to `0` and sets the whole `responses` dict to `{}`. -/
def subject_select_handler (s : Session) (new_subj : String) : Session :=
  if some new_subj ≠ s.subject then
    { s with subject := some new_subj, qidx := 0, responses := [] }
  else s

/-- The `문제 새로고침` (refresh) button handler of `app.py` (lines
116–121): replaces the bank with a fresh load and sets the whole
`responses` dict to `{}` (`qidx` and `subject` are not touched). -/
def refresh_handler (s : Session) (newBank : Bank) : Session :=
  { s with qbank := newBank, responses := [] }

/-- The five placeholder choices `"①"… "⑤"` of `app.py` (line 184). -/
def defaultChoices : List String := ["①", "②", "③", "④", "⑤"]

/-- The choices actually displayed (`app.py` lines 183–184):
`raw_choices = question.get("choices", [])` and
`choices = raw_choices if raw_choices else ["①",…,"⑤"]` — a missing field
or an empty list (both falsy) fall back to the placeholder list. -/
def display_choices (q : Question) : List String :=
  let raw := q.choices.getD []
  if raw.isEmpty then defaultChoices else raw

/-- A sample question used by the concrete witnesses. -/
def qEx : Question :=
  { question := some "q", image := some "img.png",
    choices := some ["1", "2", "3", "4", "5"], answer := some 1 }

/-- A question with an empty `choices` list, for the fallback witness. -/
def qExNoChoices : Question :=
  { question := some "q", choices := some [], answer := some 1 }

/-- A sample bank with one non-empty and one empty subject. -/
def bankEx : Bank := [("algebra", [qEx, qEx, qEx]), ("geometry", [])]

/-- A sample bank whose subjects are all empty. -/
def bankAllEmpty : Bank := [("algebra", []), ("geometry", [])]

/-- A sample session whose `qidx` is out of range for its subject. -/
def sessionEx : Session :=
  { qbank := bankEx, subject := some "algebra", qidx := 10,
    responses := [], started := true }

/-- A sample session holding a recorded answer, for the frame witnesses. -/
def sessionExResp : Session :=
  { qbank := bankEx, subject := some "algebra", qidx := 1,
    responses := [("algebra", [(0, ⟨1, true⟩)])], started := true }

-- Dict lemmas shared by the claims.

theorem dictLookup_dictInsert_self {K V : Type} [DecidableEq K]
    (m : List (K × V)) (k : K) (v : V) :
    dictLookup (dictInsert m k v) k = some v := by
  induction m with
  | nil => simp [dictInsert, dictLookup]
  | cons hd tl ih =>
      by_cases h : hd.1 = k
      · simp [dictInsert, dictLookup, h]
      · simp [dictInsert, dictLookup, h, ih]

theorem dictInsert_dictInsert_self {K V : Type} [DecidableEq K]
    (m : List (K × V)) (k : K) (v w : V) :
    dictInsert (dictInsert m k v) k w = dictInsert m k w := by
  induction m with
  | nil => simp [dictInsert]
  | cons hd tl ih =>
      by_cases h : hd.1 = k
      · simp [dictInsert, h]
      · simp [dictInsert, h, ih]

theorem storedEntry_record_response (responses : Responses) (subject : String)
    (qidx : Nat) (choice_idx : Nat) (is_correct : Bool) :
    storedEntry (record_response responses subject qidx choice_idx is_correct)
      subject qidx = some ⟨choice_idx, is_correct⟩ := by
  unfold storedEntry record_response
  rw [dictLookup_dictInsert_self]
  exact dictLookup_dictInsert_self _ _ _

theorem subjectQuestions_set_qidx (s : Session) (n : Nat) :
    subjectQuestions { s with qidx := n } = subjectQuestions s := rfl

/-- C1: checking an answer with a present correct index stores exactly
`{choice := selected, is_correct := (selected == correctIndex)}` at
`responses[subject][qidx]`, overwriting any prior entry (the prior map is
universally quantified), and re-answering with another choice replaces the
stored result accordingly; the reported result matches the stored one. -/
theorem C1_record_answer (responses : Responses) (subject : String)
    (qidx : Nat) (selected selected' : Nat) (c : Int) :
    (check_handler responses subject qidx selected (some c)).1
        = .answered (decide ((selected : Int) = c)) ∧
    storedEntry (check_handler responses subject qidx selected (some c)).2
        subject qidx = some ⟨selected, decide ((selected : Int) = c)⟩ ∧
    storedEntry
        (check_handler
          (check_handler responses subject qidx selected (some c)).2
          subject qidx selected' (some c)).2 subject qidx
        = some ⟨selected', decide ((selected' : Int) = c)⟩ := by
  refine ⟨rfl, ?_, ?_⟩
  · exact storedEntry_record_response _ _ _ _ _
  · exact storedEntry_record_response _ _ _ _ _

/-- C5: `record_response` is idempotent under identical inputs — the whole
responses map after two identical calls equals the map after one, so the
single entry at `responses[subject][qidx]` is stored once with no
duplicates. -/
theorem C5_record_response_idempotent (responses : Responses)
    (subject : String) (qidx : Nat) (choice_idx : Nat) (is_correct : Bool) :
    record_response (record_response responses subject qidx choice_idx is_correct)
        subject qidx choice_idx is_correct
      = record_response responses subject qidx choice_idx is_correct := by
  unfold record_response
  rw [dictLookup_dictInsert_self]
  simp only [Option.getD_some]
  rw [dictInsert_dictInsert_self, dictInsert_dictInsert_self]

/-- C3: when the current question's `answer` field is `None`, the check
handler reports the distinct malformed-question outcome (not a normal
incorrect evaluation) and leaves the responses map unchanged. -/
theorem C3_missing_answer_malformed (responses : Responses) (subject : String)
    (qidx : Nat) (selected : Nat) :
    (check_handler responses subject qidx selected none).1 = .malformed ∧
    (check_handler responses subject qidx selected none).2 = responses ∧
    ∀ b : Bool, CheckResult.malformed ≠ CheckResult.answered b := by
  refine ⟨rfl, rfl, ?_⟩
  intro b h
  cases h

/-- C7: returning to the landing screen only clears the `started` flag; the
responses map, the active subject, the current index and the bank are all
left unchanged. -/
theorem C7_to_landing_frame (s : Session) :
    (to_landing s).responses = s.responses ∧
    (to_landing s).subject = s.subject ∧
    (to_landing s).qidx = s.qidx ∧
    (to_landing s).qbank = s.qbank ∧
    (to_landing s).started = false := by
  exact ⟨rfl, rfl, rfl, rfl, rfl⟩

/-- C2: current-question lookup clamps the stored index silently into
`[0, len-1]` (returning no question and changing nothing when the active
subject's list is empty, in which case direct index entry is also a
no-op), the returned question is the in-bounds read at the clamped index,
and the prev/next handlers and the widget-constrained direct index entry
keep the index inside `[0, len-1]`. -/
theorem C2_navigation_bounds (s : Session) :
    (subjectQuestions s = [] →
      (get_current_question s).1 = (none, 0) ∧
      (get_current_question s).2 = s ∧
      ∀ i : Nat, set_index_input s i = s) ∧
    (subjectQuestions s ≠ [] →
      (get_current_question s).2.qidx < (subjectQuestions s).length ∧
      (get_current_question s).2.qidx
        = min s.qidx ((subjectQuestions s).length - 1) ∧
      (get_current_question s).1.1
        = (subjectQuestions s).get? (get_current_question s).2.qidx ∧
      ((get_current_question s).1.1).isSome = true ∧
      (get_current_question s).1.2 = (subjectQuestions s).length ∧
      (prev_handler (get_current_question s).2).qidx
        < (subjectQuestions s).length ∧
      (next_handler (get_current_question s).2).qidx
        < (subjectQuestions s).length ∧
      ∀ i : Nat, 1 ≤ i → i ≤ (subjectQuestions s).length →
        (set_index_input (get_current_question s).2 i).qidx
          < (subjectQuestions s).length) := by
  constructor
  · intro h
    refine ⟨?_, ?_, ?_⟩
    · simp [get_current_question, h]
    · simp [get_current_question, h]
    · intro i
      simp [set_index_input, h]
  · intro h
    obtain ⟨a, t, hq⟩ : ∃ a t, subjectQuestions s = a :: t := by
      cases hql : subjectQuestions s with
      | nil => exact absurd hql h
      | cons a t => exact ⟨a, t, rfl⟩
    have hlen : (subjectQuestions s).length = t.length + 1 := by
      rw [hq]; rfl
    refine ⟨?_, ?_, ?_, ?_, ?_, ?_, ?_, ?_⟩
    · simp [get_current_question, hq]
    · simp [get_current_question, hq]
    · simp [get_current_question, hq]
    · simp [get_current_question, hq]
    · simp [get_current_question, hq]
    · simp [get_current_question, prev_handler, hq]
      omega
    · simp [get_current_question, next_handler, hq, subjectQuestions_set_qidx]
    · intro i h1 h2
      rw [hlen] at h2
      simp [get_current_question, set_index_input, hq,
        subjectQuestions_set_qidx]
      split
      · simp
      · simp
        omega

/-- Witness for C2 at a concrete session whose stored index 10 is out of
range for its 3-question subject: the lookup clamps it to 2. -/
theorem C2_witness :
    subjectQuestions sessionEx ≠ [] ∧
    (get_current_question sessionEx).2.qidx
      < (subjectQuestions sessionEx).length ∧
    (get_current_question sessionEx).2.qidx = 2 :=
  ⟨by decide,
   ((C2_navigation_bounds sessionEx).2 (by decide)).1,
   by decide⟩

/-- C4 counterexample: malformed file content does not yield a reportable
load-error value or a fallback bank — `json.load` raises a
`JSONDecodeError` that escapes `load_questions` and, with no handler at
the call site, aborts the script run. -/
theorem C4_counterexample :
    load_questions (FileState.withContent none)
        = Except.error PyError.jsonDecodeError ∧
    app_reload_bank sessionEx (FileState.withContent none)
        = Except.error PyError.jsonDecodeError := by
  exact ⟨rfl, rfl⟩

/-- C4 amended: an absent file yields an empty bank and well-formed
content is loaded with `null` subject values normalized to empty lists,
but malformed content makes `load_questions` raise an uncaught
`json.JSONDecodeError` (the bank reload at line 85 propagates it),
rather than returning a reportable error value or fallback bank. -/
theorem C4_load_behavior (s : Session)
    (data : List (String × Option (List Question))) :
    load_questions FileState.absent = Except.ok [] ∧
    load_questions (FileState.withContent none)
        = Except.error PyError.jsonDecodeError ∧
    app_reload_bank s (FileState.withContent none)
        = Except.error PyError.jsonDecodeError ∧
    load_questions (FileState.withContent (some data))
        = Except.ok (data.map fun kv => (kv.1, kv.2.getD [])) := by
  exact ⟨rfl, rfl, rfl, rfl⟩

/-- C6: when some subject has a non-empty question list, the selectable
subject list contains exactly the subjects with a non-empty list; when
every subject's list is empty, it is the full key list. -/
theorem C6_subject_list (qbank : Bank) :
    ((∃ kv ∈ qbank, kv.2 ≠ []) →
      ∀ k : String,
        k ∈ get_subject_list qbank ↔ ∃ v, (k, v) ∈ qbank ∧ v ≠ []) ∧
    ((∀ kv ∈ qbank, kv.2 = []) →
      get_subject_list qbank = qbank.map Prod.fst) := by
  constructor
  · intro hex k
    obtain ⟨kv, hkv, hne⟩ := hex
    have hfil : kv ∈ qbank.filter (fun kv => kv.2.length > 0) := by
      rw [List.mem_filter]
      refine ⟨hkv, ?_⟩
      simpa [List.length_pos] using hne
    have hsub : (qbank.filter (fun kv => kv.2.length > 0)).map Prod.fst ≠ [] :=
      List.ne_nil_of_mem (List.mem_map_of_mem Prod.fst hfil)
    unfold get_subject_list
    rw [if_neg (by simpa [List.isEmpty_iff] using hsub)]
    simp only [List.mem_map, List.mem_filter]
    constructor
    · rintro ⟨⟨k1, v⟩, ⟨hmem, hlen⟩, hk⟩
      refine ⟨v, ?_, ?_⟩
      · simpa [← hk] using hmem
      · simp at hlen
        simpa [List.length_pos] using hlen
    · rintro ⟨v, hmem, hv⟩
      refine ⟨(k, v), ⟨hmem, ?_⟩, rfl⟩
      simpa [List.length_pos] using hv
  · intro hall
    have hfil : qbank.filter (fun kv => kv.2.length > 0) = [] := by
      rw [List.filter_eq_nil_iff]
      intro kv hkv
      simp [hall kv hkv]
    simp [get_subject_list, hfil]

/-- Witness for C6 on two concrete banks: one with a non-empty subject
(where the empty subject `geometry` is excluded) and one where every
subject is empty (where all keys are returned). -/
theorem C6_witness :
    ((∃ kv ∈ bankEx, kv.2 ≠ []) ∧
      ("geometry" ∈ get_subject_list bankEx ↔
        ∃ v, ("geometry", v) ∈ bankEx ∧ v ≠ [])) ∧
    ((∀ kv ∈ bankAllEmpty, kv.2 = []) ∧
      get_subject_list bankAllEmpty = bankAllEmpty.map Prod.fst) :=
  ⟨⟨by decide, (C6_subject_list bankEx).1 (by decide) "geometry"⟩,
   ⟨by decide, (C6_subject_list bankAllEmpty).2 (by decide)⟩⟩

theorem countP_snd_is_correct (l : List (Nat × ResponseEntry)) :
    (l.map Prod.snd).countP (fun e => e.is_correct)
      = (l.filter (fun kv => kv.2.is_correct)).length := by
  induction l with
  | nil => rfl
  | cons hd tl ih =>
      by_cases h : hd.2.is_correct = true <;>
        simp [List.countP_cons, List.filter_cons, h, ih]

/-- C8: the progress summary's solved count is the number of entries
recorded for the subject, its total is the length of the subject's
question list, and its correct count is the number of recorded entries
whose `is_correct` field is true. -/
theorem C8_progress_summary (responses : Responses) (qbank : Bank)
    (subject : String) :
    (progress_summary responses qbank subject).1
        = ((dictLookup responses subject).getD []).length ∧
    (progress_summary responses qbank subject).2.1
        = ((dictLookup qbank subject).getD []).length ∧
    (progress_summary responses qbank subject).2.2
        = (((dictLookup responses subject).getD []).filter
            (fun kv => kv.2.is_correct)).length := by
  exact ⟨rfl, rfl, countP_snd_is_correct _⟩

/-- C9: switching to a different subject empties the entire responses map
(every subject's recorded answers are gone) and resets the index to 0,
and the bank-refresh action likewise empties the whole responses map
(leaving subject and index untouched). -/
theorem C9_switch_and_refresh_clear (s : Session) (new_subj : String)
    (newBank : Bank) :
    (some new_subj ≠ s.subject →
      (subject_select_handler s new_subj).responses = [] ∧
      (subject_select_handler s new_subj).qidx = 0 ∧
      (subject_select_handler s new_subj).subject = some new_subj ∧
      (subject_select_handler s new_subj).qbank = s.qbank ∧
      ∀ (subj : String) (i : Nat),
        storedEntry (subject_select_handler s new_subj).responses subj i
          = none) ∧
    ((refresh_handler s newBank).responses = [] ∧
     (refresh_handler s newBank).qbank = newBank ∧
     (refresh_handler s newBank).qidx = s.qidx ∧
     (refresh_handler s newBank).subject = s.subject ∧
     ∀ (subj : String) (i : Nat),
       storedEntry (refresh_handler s newBank).responses subj i = none) := by
  constructor
  · intro h
    simp [subject_select_handler, h, storedEntry, dictLookup]
  · simp [refresh_handler, storedEntry, dictLookup]

/-- Witness for C9 on a session that has a recorded answer: switching away
from `algebra` to `geometry` discards it and resets the index. -/
theorem C9_witness :
    (some "geometry" ≠ sessionExResp.subject) ∧
    (subject_select_handler sessionExResp "geometry").responses = [] ∧
    (subject_select_handler sessionExResp "geometry").qidx = 0 :=
  ⟨by decide,
   ((C9_switch_and_refresh_clear sessionExResp "geometry" []).1
      (by decide)).1,
   ((C9_switch_and_refresh_clear sessionExResp "geometry" []).1
      (by decide)).2.1⟩

/-- C10: when the current question's `choices` field is missing or an
empty list, the five placeholder choices `①…⑤` are displayed instead, and
answer evaluation proceeds normally against the question's `answer` field
(recording the result) rather than reporting the record as malformed. -/
theorem C10_choices_fallback (q : Question) (responses : Responses)
    (subject : String) (qidx selected : Nat) (a : Int)
    (hc : q.choices = none ∨ q.choices = some [])
    (ha : q.answer = some a) :
    display_choices q = defaultChoices ∧
    (display_choices q).length = 5 ∧
    (check_handler responses subject qidx selected q.answer).1
        = CheckResult.answered (decide ((selected : Int) = a)) ∧
    storedEntry (check_handler responses subject qidx selected q.answer).2
        subject qidx
        = some ⟨selected, decide ((selected : Int) = a)⟩ := by
  have hd : display_choices q = defaultChoices := by
    cases hc with
    | inl h => simp [display_choices, h]
    | inr h => simp [display_choices, h]
  refine ⟨hd, by rw [hd]; rfl, ?_, ?_⟩
  · rw [ha]
    exact rfl
  · rw [ha]
    exact storedEntry_record_response _ _ _ _ _

/-- Witness for C10 on a concrete question with an empty `choices` list
and `answer = 1`: the placeholder choices are displayed. -/
theorem C10_witness :
    (qExNoChoices.choices = none ∨ qExNoChoices.choices = some []) ∧
    qExNoChoices.answer = some 1 ∧
    display_choices qExNoChoices = defaultChoices :=
  ⟨Or.inr rfl, rfl,
   (C10_choices_fallback qExNoChoices [] "algebra" 0 1 1
      (Or.inr rfl) rfl).1⟩

/-- Witness for C3 on a concrete submission against a question whose
`answer` is missing: nothing is recorded. -/
theorem C3_witness :
    (check_handler [] "algebra" 0 1 none).2 = ([] : Responses) ∧
    (check_handler [] "algebra" 0 1 none).1 = CheckResult.malformed :=
  ⟨(C3_missing_answer_malformed [] "algebra" 0 1).2.1,
   (C3_missing_answer_malformed [] "algebra" 0 1).1⟩
